import Mathlib

/-!
Verification of the open-cluster-management `sdk-go` gRPC transport and
manifest-bundle codec subsystem.

The Go sources embedded here:
* `pkg/cloudevents/generic/options/grpc/options.go`
  - `BuildGRPCOptionsFromFlags` (config validation and keep-alive defaults)
  - `GetGRPCClientConn` (credential selection: insecure / TLS / mTLS / token)
  - the connection-health-monitor goroutine of `GetCloudEventsProtocol`
* the manifest-bundle codec (`EventDataType` / `Encode` / `Decode`), whose
  implementation file is not among the provided sources (only its tests are);
  those definitions are modelled from the specification and cross-checked
  against the concrete cases of `TestManifestBundleEncode` /
  `TestManifestBundleDecode`.

Durations (`time.Duration`) are modelled as integer nanosecond counts.
-/

namespace SdkGo


/-! ## Connection health monitor
(`GetCloudEventsProtocol`, options.go lines 224-247)

The goroutine runs a `select` loop over the cancellation channel and a
100 ms ticker.  We model one run of the goroutine as a deterministic
fold over tick indices `0, 1, 2, …`:

* `states i` is the connectivity state `conn.GetState()` would report at
  tick `i`;
* `cancelAt = some k` means the context is cancelled before tick `k` is
  delivered, so from index `k` on the `ctx.Done()` branch wins the select
  (it stops the ticker, hence no later tick is delivered, and closes the
  connection; the handler is untouched);
* `fuel` bounds the length of the observed trace.

The result records which ticks actually polled the connection, how often
the error handler ran, and whether `conn.Close()` was called. -/

inductive ConnectivityState where
  | idle
  | connecting
  | ready
  | transientFailure
  | shutdown
deriving DecidableEq, Repr

/-- The test on options.go line 239:
`connState == connectivity.TransientFailure || connState == connectivity.Idle`. -/
def isDisconnected (s : ConnectivityState) : Bool :=
  s == ConnectivityState.transientFailure || s == ConnectivityState.idle

structure MonitorResult where
  /-- tick indices at which `conn.GetState()` was evaluated -/
  polls : List Nat
  /-- number of `errorHandler` invocations -/
  handlerCalls : Nat
  /-- whether `conn.Close()` was called -/
  connClosed : Bool
deriving DecidableEq, Repr

/-- Whether the context-done branch wins the select at tick index `i`. -/
def cancelledBy (cancelAt : Option Nat) (i : Nat) : Bool :=
  match cancelAt with
  | some k => k ≤ i
  | none => false

/-- One run of the monitor goroutine's `for { select { … } }` loop, starting
at tick index `i`, observing at most `fuel` further select iterations.

Branches, mirroring options.go lines 227-246:
* `ctx.Done()`: `ticker.Stop(); conn.Close()` — no poll, no handler call, and
  since the ticker is stopped no later tick is delivered;
* `ticker.C`: poll `conn.GetState()`; if the state is `TransientFailure` or
  `Idle`, call the error handler, stop the ticker, close the connection and
  return from the goroutine; otherwise loop. -/
def monitorLoop (states : Nat → ConnectivityState) (cancelAt : Option Nat) :
    Nat → Nat → MonitorResult
  | 0, _ => ⟨[], 0, false⟩
  | fuel + 1, i =>
    if cancelledBy cancelAt i then
      ⟨[], 0, true⟩
    else if isDisconnected (states i) then
      ⟨[i], 1, true⟩
    else
      let r := monitorLoop states cancelAt fuel (i + 1)
      ⟨i :: r.polls, r.handlerCalls, r.connClosed⟩

/-- A monitor run from the first tick. -/
def monitorRun (states : Nat → ConnectivityState) (cancelAt : Option Nat)
    (fuel : Nat) : MonitorResult :=
  monitorLoop states cancelAt fuel 0

/-! ## Transport configuration builder
(`BuildGRPCOptionsFromFlags`, options.go lines 24-130)

The file read and the YAML unmarshal are I/O glue; the embedding starts
from the parsed `GRPCConfig` document.  A Go `string` zero value `""`
means "unset"; a Go `*time.Duration` is `Option Int` (nanoseconds). -/

/-- One second, as a `time.Duration` nanosecond count. -/
def second : Int := 1000000000

structure KeepAliveOptions where
  enable : Bool
  time : Int
  timeout : Int
  permitWithoutStream : Bool
deriving DecidableEq, Repr

structure GRPCOptions where
  url : String
  caFile : String
  clientCertFile : String
  clientKeyFile : String
  tokenFile : String
  keepAliveOptions : KeepAliveOptions
deriving DecidableEq, Repr

structure KeepAliveConfig where
  enable : Bool
  time : Option Int
  timeout : Option Int
  permitWithoutStream : Bool
deriving DecidableEq, Repr

structure GRPCConfig where
  url : String
  caFile : String
  clientCertFile : String
  clientKeyFile : String
  tokenFile : String
  keepAliveConfig : KeepAliveConfig
deriving DecidableEq, Repr

/-- `BuildGRPCOptionsFromFlags`, options.go lines 88-129, after the YAML
unmarshal.  Validation checks run in source order with early return; the
success branch builds the options with keep-alive defaults
`{enable:false, time:30s, timeout:10s, permitWithoutStream:false}` and
then overwrites each field that the config supplies. -/
def buildGRPCOptionsFromFlags (config : GRPCConfig) : Except String GRPCOptions :=
  if config.url = "" then
    .error "url is required"
  else if (config.clientCertFile = "" ∧ config.clientKeyFile ≠ "") ∨
      (config.clientCertFile ≠ "" ∧ config.clientKeyFile = "") then
    .error "either both or none of clientCertFile and clientKeyFile must be set"
  else if config.clientCertFile ≠ "" ∧ config.clientKeyFile ≠ "" ∧ config.caFile = "" then
    .error "setting clientCertFile and clientKeyFile requires caFile"
  else if config.tokenFile ≠ "" ∧ config.caFile = "" then
    .error "setting tokenFile requires caFile"
  else
    let options : GRPCOptions :=
      { url := config.url
        caFile := config.caFile
        clientCertFile := config.clientCertFile
        clientKeyFile := config.clientKeyFile
        tokenFile := config.tokenFile
        keepAliveOptions :=
          { enable := false
            time := 30 * second
            timeout := 10 * second
            permitWithoutStream := false } }
    let options := { options with keepAliveOptions.enable := config.keepAliveConfig.enable }
    let options :=
      match config.keepAliveConfig.time with
      | some t => { options with keepAliveOptions.time := t }
      | none => options
    let options :=
      match config.keepAliveConfig.timeout with
      | some t => { options with keepAliveOptions.timeout := t }
      | none => options
    .ok { options with
      keepAliveOptions.permitWithoutStream := config.keepAliveConfig.permitWithoutStream }

/-! ## Secure connection factory
(`GetGRPCClientConn`, options.go lines 136-216)

The function's effect on the world is: which files it reads, which
transport credential it passes to `grpc.Dial`, and which per-RPC
credential it attaches.  We model the file system as a partial map from
paths to contents and the two certificate-parsing steps as oracles:
`validCAPEM` for `x509.CertPool.AppendCertsFromPEM` and `loadX509KeyPair`
for `tls.LoadX509KeyPair` (which reads and parses both files itself;
`none` covers both a read error and a parse error).
`x509.SystemCertPool()` is assumed to succeed, which the model records as
the `rootCAsIncludesSystemPool` flag. -/

/-- `tls.VersionTLS13` (= 0x0304). -/
def versionTLS13 : Nat := 772

/-- The fields of Go's `tls.Config` that `GetGRPCClientConn` sets. -/
structure TLSClientConfig where
  rootCAsIncludesSystemPool : Bool
  /-- PEM blocks appended to the root pool beyond the system roots -/
  rootCAsAppendedPEM : List String
  minVersion : Nat
  maxVersion : Nat
  /-- loaded client certificate/key pairs, as (cert, key) file contents -/
  certificates : List (String × String)
deriving DecidableEq, Repr

inductive TransportCreds where
  | insecureCreds
  | tlsCreds (cfg : TLSClientConfig)
deriving DecidableEq, Repr

/-- The observable outcome of a successful `GetGRPCClientConn` call. -/
structure DialResult where
  url : String
  keepaliveSet : Bool
  creds : TransportCreds
  /-- bearer token attached as a per-RPC credential, if any -/
  perRPCToken : Option String
  /-- file paths read, in order -/
  filesRead : List String
deriving DecidableEq, Repr

/-- `GetGRPCClientConn`, options.go lines 136-216.  Branch structure:
CA file present → TLS 1.3-pinned config; within it, client cert+key
present → mutual TLS (token file untouched); else token file present →
bearer token per-RPC credential over server-only TLS; else server-only
TLS.  CA file absent → insecure credentials, no file touched. -/
def getGRPCClientConn (fs : String → Option String) (validCAPEM : String → Bool)
    (loadX509KeyPair : String → String → Option (String × String))
    (o : GRPCOptions) : Except String DialResult :=
  let keepaliveSet := o.keepAliveOptions.enable
  if o.caFile.length ≠ 0 then
    match fs o.caFile with
    | none => .error ("failed to read " ++ o.caFile)
    | some caPEM =>
      if validCAPEM caPEM then
        let tlsConfig : TLSClientConfig :=
          { rootCAsIncludesSystemPool := true
            rootCAsAppendedPEM := [caPEM]
            minVersion := versionTLS13
            maxVersion := versionTLS13
            certificates := [] }
        if o.clientCertFile.length ≠ 0 ∧ o.clientKeyFile.length ≠ 0 then
          match loadX509KeyPair o.clientCertFile o.clientKeyFile with
          | none => .error ("failed to load key pair " ++ o.clientCertFile ++ " " ++
              o.clientKeyFile)
          | some clientCerts =>
            .ok ⟨o.url, keepaliveSet,
              .tlsCreds { tlsConfig with certificates := [clientCerts] }, none,
              [o.caFile, o.clientCertFile, o.clientKeyFile]⟩
        else
          if o.tokenFile.length ≠ 0 then
            match fs o.tokenFile with
            | none => .error ("failed to read " ++ o.tokenFile)
            | some token =>
              .ok ⟨o.url, keepaliveSet, .tlsCreds tlsConfig, some token,
                [o.caFile, o.tokenFile]⟩
          else
            .ok ⟨o.url, keepaliveSet, .tlsCreds tlsConfig, none, [o.caFile]⟩
      else .error ("invalid CA " ++ o.caFile)
  else
    .ok ⟨o.url, keepaliveSet, .insecureCreds, none, []⟩

/-! ## Event type taxonomy and manifest-bundle codec

The codec implementation file is not among the provided sources — only its
tests (`TestManifestBundleEncode` / `TestManifestBundleDecode`) are — so the
definitions below are modelled from the specification (§4.1, §4.2) and
cross-checked against the concrete test cases. -/

/-- Modelled from the spec: the event type's resource-domain component
`{domainGroup, version, resource}` (the codec registers exactly one such
data type); the implementation source for the type taxonomy is missing. -/
structure CloudEventsDataType where
  group : String
  version : String
  resource : String
deriving DecidableEq, Repr

/-- Modelled from the spec: a full event type
`{domainGroup, version, resource, subResource, action}`; the sub-resource
segment is the literal `"status"` for status events and `"spec"`
otherwise. -/
structure CloudEventsType where
  dataType : CloudEventsDataType
  subResource : String
  action : String
deriving DecidableEq, Repr

/-- Modelled from the spec: the canonical dot-joined string form
`<group>.<version>.<resource>.<status|subresource>.<action>`. -/
def formatCloudEventsType (t : CloudEventsType) : String :=
  t.dataType.group ++ "." ++ t.dataType.version ++ "." ++ t.dataType.resource ++
    "." ++ t.subResource ++ "." ++ t.action

/-- Splitting a character list at every occurrence of `c` (the semantics
of Go's `strings.Split` for a one-character separator). -/
def splitOnChar (c : Char) : List Char → List (List Char)
  | [] => [[]]
  | x :: xs =>
    let r := splitOnChar c xs
    if x = c then [] :: r
    else
      match r with
      | [] => [[x]]
      | y :: ys => (x :: y) :: ys

/-- The dot-separated tokens of a string. -/
def dotTokens (s : String) : List String :=
  (splitOnChar (Char.ofNat 46) s.data).map (fun l => String.mk l)

/-- Joining tokens back with dots. -/
def joinDots : List String → String
  | [] => ""
  | [x] => x
  | x :: y :: ys => x ++ "." ++ joinDots (y :: ys)

/-- Modelled from the spec: parsing the canonical dot-joined form.  The
group itself contains dots, so the last four dot-separated tokens are
action, sub-resource, resource and version, and the remaining prefix is
the group; parsing fails when fewer than five tokens are present or the
sub-resource segment is neither `spec` nor `status`. -/
def parseCloudEventsType (s : String) : Option CloudEventsType :=
  let toks := dotTokens s
  let n := toks.length
  if n ≥ 5 then
    let action := toks.getD (n - 1) ""
    let subRes := toks.getD (n - 2) ""
    let resource := toks.getD (n - 3) ""
    let version := toks.getD (n - 4) ""
    let group := joinDots (toks.take (n - 4))
    if subRes = "spec" ∨ subRes = "status" then
      some ⟨⟨group, version, resource⟩, subRes, action⟩
    else none
  else none

/-- The data type registered by the manifest-bundle codec
(`payload.ManifestBundleEventDataType`), as it appears in the test
envelopes: `io.open-cluster-management.works.v1alpha1.manifestbundles`. -/
def manifestBundleEventDataType : CloudEventsDataType :=
  ⟨"io.open-cluster-management.works", "v1alpha1", "manifestbundles"⟩

/-- The label key carrying the original source, from the test work object. -/
def originalSourceLabel : String :=
  "cloudevents.open-cluster-management.io/originalsource"

/-- An event envelope as the codec sees it: type string, extension
attributes, and an optional payload (`data` unset models an envelope on
which `SetData` was never called). -/
structure Envelope where
  source : String
  eventType : String
  extensions : List (String × String)
  data : Option String
deriving DecidableEq, Repr

def Envelope.extension (e : Envelope) (k : String) : Option String :=
  (e.extensions.find? (fun p => p.1 == k)).map (fun p => p.2)

/-- Modelled from the spec: the distinct decode failure reasons of §4.2. -/
inductive DecodeError where
  | badEventType (t : String)
  | unsupportedDataType (t : String)
  | missingExtension (k : String)
  | badPayload (msg : String)
deriving DecidableEq, Repr

/-- The resource object reconstructed by a successful decode. -/
structure DecodedWork (α : Type) where
  resourceID : String
  resourceVersion : String
  clusterName : String
  originalSource : Option String
  deletionTimestamp : Option String
  bundle : α
deriving DecidableEq, Repr

/-- Modelled from the spec: `Decode` of the manifest-bundle codec, whose
implementation source is missing.  Checks run in the spec's priority
order: unparseable type string; unsupported data type; missing
`resourceid`; missing `resourceversion`; missing `clustername`; payload
deserialization failure.  The JSON deserialization of the payload is the
oracle `parsePayload` (applied to the envelope's optional data). -/
def manifestBundleDecode {α : Type} (parsePayload : Option String → Except String α)
    (evt : Envelope) : Except DecodeError (DecodedWork α) :=
  match parseCloudEventsType evt.eventType with
  | none => .error (.badEventType evt.eventType)
  | some t =>
    if t.dataType ≠ manifestBundleEventDataType then
      .error (.unsupportedDataType evt.eventType)
    else
      match evt.extension "resourceid" with
      | none => .error (.missingExtension "resourceid")
      | some rid =>
        match evt.extension "resourceversion" with
        | none => .error (.missingExtension "resourceversion")
        | some rv =>
          match evt.extension "clustername" with
          | none => .error (.missingExtension "clustername")
          | some cn =>
            match parsePayload evt.data with
            | .error msg => .error (.badPayload msg)
            | .ok mb =>
              .ok ⟨rid, rv, cn, evt.extension "originalsource",
                evt.extension "deletiontimestamp", mb⟩

/-- An always-failing payload parser, standing for the JSON deserialization
of an envelope whose data is absent or not a manifest bundle (the failing
payload cases of `TestManifestBundleDecode`). -/
def badDataParse : Option String → Except String Unit :=
  fun _ => Except.error "bad data"

/-- Modelled from the spec: the encode failure reasons of §4.2. -/
inductive EncodeError where
  | unsupportedDataType
  | badResourceVersion (s : String)
  | missingOriginalSource
deriving DecidableEq, Repr

/-- The manifest-work resource as the encoder reads it. -/
structure ManifestWork where
  uid : String
  namespaceName : String
  resourceVersion : String
  labels : List (String × String)
  deletionTimestamp : Option String
deriving DecidableEq, Repr

def ManifestWork.getLabel (w : ManifestWork) (k : String) : Option String :=
  (w.labels.find? (fun p => p.1 == k)).map (fun p => p.2)

/-- Parsing a string as a non-negative decimal integer (the semantics of
the resource-version check; fails on empty or non-digit input). -/
def decimalToNat? (s : String) : Option Nat :=
  if s.data ≠ [] ∧ s.data.all (fun c => c.isDigit) then
    some (s.data.foldl (fun n c => n * 10 + (c.toNat - 48)) 0)
  else none

/-- Modelled from the spec: `Encode` of the manifest-bundle codec, whose
implementation source is missing.  Fails when the event type's data-type
component differs from the registered data type; then when the resource
version is not a non-negative integer; then when a status sub-resource
event lacks the original-source label.  On success it emits the envelope
with the formatted type, `resourceid`/`resourceversion`/`clustername`
extensions and, when marked for deletion, `deletiontimestamp`; the payload
carries the serialized manifest bundle (the JSON serialization is the
oracle `serialize`). -/
def manifestBundleEncode (serialize : ManifestWork → String) (sourceID : String)
    (t : CloudEventsType) (work : ManifestWork) : Except EncodeError Envelope :=
  if t.dataType ≠ manifestBundleEventDataType then
    .error .unsupportedDataType
  else
    match decimalToNat? work.resourceVersion with
    | none => .error (.badResourceVersion work.resourceVersion)
    | some rv =>
      if t.subResource = "status" ∧ work.getLabel originalSourceLabel = none then
        .error .missingOriginalSource
      else
        .ok ⟨sourceID, formatCloudEventsType t,
          [("resourceid", work.uid), ("resourceversion", toString rv),
            ("clustername", work.namespaceName)] ++
            (match work.deletionTimestamp with
             | some ts => [("deletiontimestamp", ts)]
             | none => []),
          some (serialize work)⟩

/-- If no tick before `t` observes a disconnected state and tick `t` does,
the run from `i ≤ t` polls exactly ticks `i, …, t`, fires the handler once
and closes the connection. -/
theorem monitorLoop_disconnect (states : Nat → ConnectivityState) :
    ∀ fuel i t, i ≤ t → t < i + fuel → isDisconnected (states t) = true →
    (∀ j, i ≤ j → j < t → isDisconnected (states j) = false) →
    monitorLoop states none fuel i = ⟨List.range' i (t - i + 1), 1, true⟩ := by
  intro fuel
  induction fuel with
  | zero =>
    intro i t hit hlt _ _
    omega
  | succ fuel ih =>
    intro i t hit hlt hterm hfree
    rcases Nat.eq_or_lt_of_le hit with heq | hlt'
    · subst heq
      simp [monitorLoop, cancelledBy, hterm, List.range']
    · have hfree_i : isDisconnected (states i) = false := hfree i (Nat.le_refl i) hlt'
      have hrec := ih (i + 1) t hlt' (by omega) hterm
        (fun j hj1 hj2 => hfree j (by omega) hj2)
      simp only [monitorLoop, cancelledBy, Bool.false_eq_true, if_false, hfree_i, hrec]
      have hrange : List.range' i (t - i + 1) = i :: List.range' (i + 1) (t - (i + 1) + 1) := by
        have : t - i + 1 = (t - (i + 1) + 1) + 1 := by omega
        rw [this, List.range'_succ]
      simp [hrange]

/-- If no tick before the cancellation index `k` observes a disconnected
state, the run polls exactly ticks `i, …, k-1`, never fires the handler,
and closes the connection. -/
theorem monitorLoop_cancel (states : Nat → ConnectivityState) :
    ∀ fuel i k, i ≤ k → k < i + fuel →
    (∀ j, i ≤ j → j < k → isDisconnected (states j) = false) →
    monitorLoop states (some k) fuel i = ⟨List.range' i (k - i), 0, true⟩ := by
  intro fuel
  induction fuel with
  | zero =>
    intro i k hik hlt _
    omega
  | succ fuel ih
  =>
    intro i k hik hlt hfree
    rcases Nat.eq_or_lt_of_le hik with heq | hlt'
    · subst heq
      simp [monitorLoop, cancelledBy]
    · have hcancel : cancelledBy (some k) i = false := by
        simp [cancelledBy]; omega
      have hfree_i : isDisconnected (states i) = false := hfree i (Nat.le_refl i) hlt'
      have hrec := ih (i + 1) k hlt' (by omega)
        (fun j hj1 hj2 => hfree j (by omega) hj2)
      simp only [monitorLoop, hcancel, Bool.false_eq_true, if_false, hfree_i, hrec]
      have hrange : List.range' i (k - i) = i :: List.range' (i + 1) (k - (i + 1)) := by
        have : k - i = (k - (i + 1)) + 1 := by omega
        rw [this, List.range'_succ]
      simp [hrange]

/-- **C1.** For every monitored connection handle (modelled by its reported
state trace), when the first poll observing `TransientFailure` or `Idle`
happens at tick `t` (in particular after a transition from `Ready` or
`Connecting` into `Idle`, since the code tests only the currently observed
state), the monitor invokes the error handler exactly once, closes the
connection, and performs no poll after tick `t`: the polled ticks are
exactly `0, …, t`. -/
theorem monitor_terminal_fires_once_and_stops
    (states : Nat → ConnectivityState) (fuel t : Nat)
    (hfuel : t < fuel)
    (hterm : isDisconnected (states t) = true)
    (hfree : ∀ j, j < t → isDisconnected (states j) = false) :
    monitorRun states none fuel = ⟨List.range (t + 1), 1, true⟩ ∧
      ∀ j ∈ (monitorRun states none fuel).polls, j ≤ t := by
  have h := monitorLoop_disconnect states fuel 0 t (Nat.zero_le t) (by omega) hterm
    (fun j _ hj => hfree j hj)
  have hres : monitorRun states none fuel = ⟨List.range (t + 1), 1, true⟩ := by
    rw [monitorRun, h, List.range_eq_range']
    simp
  refine ⟨hres, ?_⟩
  intro j hj
  rw [hres] at hj
  simp only [List.mem_range] at hj
  omega

/-- Witness for C1, mirroring the spec's scenario: the reported state is
`Ready` on the first poll and `TransientFailure` on the second (tick 1);
the handler fires exactly once, the connection is closed and no poll
occurs after tick 1. -/
theorem monitor_terminal_fires_once_and_stops_witness :
    monitorRun (fun n => if n = 1 then ConnectivityState.transientFailure
      else ConnectivityState.ready) none 10 = ⟨[0, 1], 1, true⟩ := by
  have h := monitor_terminal_fires_once_and_stops
    (fun n => if n = 1 then ConnectivityState.transientFailure
      else ConnectivityState.ready) 10 1 (by decide) (by decide)
    (by decide)
  rw [h.1]
  rfl

/-- **C4.** External cancellation (the context becomes done before tick `k`,
with no disconnected state observed earlier) stops the polling loop — no
tick at or after `k` polls the connection — and closes the connection,
and the error handler is never invoked. -/
theorem monitor_cancel_no_handler
    (states : Nat → ConnectivityState) (fuel k : Nat)
    (hfuel : k < fuel)
    (hfree : ∀ j, j < k → isDisconnected (states j) = false) :
    monitorRun states (some k) fuel = ⟨List.range k, 0, true⟩ := by
  have h := monitorLoop_cancel states fuel 0 k (Nat.zero_le k) (by omega)
    (fun j _ hj => hfree j hj)
  rw [monitorRun, h, List.range_eq_range']
  simp

/-- Witness for C4: a healthy (`Ready`) connection whose context is
cancelled before the third tick: two polls happen, the handler never
fires, and the connection is closed. -/
theorem monitor_cancel_no_handler_witness :
    monitorRun (fun _ => ConnectivityState.ready) (some 2) 10 = ⟨[0, 1], 0, true⟩ := by
  have h := monitor_cancel_no_handler (fun _ => ConnectivityState.ready) 10 2
    (by decide) (by decide)
  rw [h]
  rfl

/-- **C10.** The polling step is memoryless: it reacts only to the state
reported at the current tick, so a first poll that already observes `Idle`
(or `TransientFailure`) — on a connection that has never been `Ready` or
`Connecting` — immediately invokes the error handler, closes the
connection, and stops polling. -/
theorem monitor_memoryless_first_poll
    (states : Nat → ConnectivityState) (fuel : Nat)
    (hterm : isDisconnected (states 0) = true) :
    monitorRun states none (fuel + 1) = ⟨[0], 1, true⟩ := by
  simp [monitorRun, monitorLoop, cancelledBy, hterm]

/-- Witness for C10: a freshly created connection reporting `Idle` at its
very first poll triggers the handler at tick 0. -/
theorem monitor_memoryless_first_poll_witness :
    monitorRun (fun _ => ConnectivityState.idle) none 10 = ⟨[0], 1, true⟩ :=
  monitor_memoryless_first_poll (fun _ => ConnectivityState.idle) 9 (by decide)

/-- **C3.** Validation checks run in the fixed order URL presence, then
client-cert/client-key pairing, then cert/key-requires-CA, then
token-requires-CA; the first violated rule determines the returned error
and later rules are not evaluated (each conjunct holds for arbitrary
values of every field a later rule would inspect). -/
theorem buildGRPCOptions_validation_order (c : GRPCConfig) :
    (c.url = "" → buildGRPCOptionsFromFlags c = .error "url is required") ∧
    (c.url ≠ "" →
      ((c.clientCertFile = "" ∧ c.clientKeyFile ≠ "") ∨
        (c.clientCertFile ≠ "" ∧ c.clientKeyFile = "")) →
      buildGRPCOptionsFromFlags c =
        .error "either both or none of clientCertFile and clientKeyFile must be set") ∧
    (c.url ≠ "" → c.clientCertFile ≠ "" → c.clientKeyFile ≠ "" → c.caFile = "" →
      buildGRPCOptionsFromFlags c =
        .error "setting clientCertFile and clientKeyFile requires caFile") ∧
    (c.url ≠ "" → c.clientCertFile = "" → c.clientKeyFile = "" →
      c.tokenFile ≠ "" → c.caFile = "" →
      buildGRPCOptionsFromFlags c = .error "setting tokenFile requires caFile") := by
  refine ⟨?_, ?_, ?_, ?_⟩
  · intro h
    simp [buildGRPCOptionsFromFlags, h]
  · intro hurl hpair
    simp [buildGRPCOptionsFromFlags, hurl, hpair]
  · intro hurl hcert hkey hca
    have hpair : ¬((c.clientCertFile = "" ∧ c.clientKeyFile ≠ "") ∨
        (c.clientCertFile ≠ "" ∧ c.clientKeyFile = "")) := by
      simp [hcert, hkey]
    simp [buildGRPCOptionsFromFlags, hurl, hpair, hcert, hkey, hca]
  · intro hurl hcert hkey htok hca
    simp [buildGRPCOptionsFromFlags, hurl, hcert, hkey, htok, hca]

/-- Witness for C3: the four test-file configs (empty; cert without key;
cert+key without CA — with a token file also set, showing the earlier rule
wins; token without CA) each produce the first violated rule's error. -/
theorem buildGRPCOptions_validation_order_witness :
    buildGRPCOptionsFromFlags ⟨"", "", "", "", "", ⟨false, none, none, false⟩⟩ =
      .error "url is required" ∧
    buildGRPCOptionsFromFlags ⟨"test", "", "test", "", "", ⟨false, none, none, false⟩⟩ =
      .error "either both or none of clientCertFile and clientKeyFile must be set" ∧
    buildGRPCOptionsFromFlags ⟨"test", "", "test", "test", "tok", ⟨false, none, none, false⟩⟩ =
      .error "setting clientCertFile and clientKeyFile requires caFile" ∧
    buildGRPCOptionsFromFlags ⟨"test", "", "", "", "test", ⟨false, none, none, false⟩⟩ =
      .error "setting tokenFile requires caFile" := by
  refine ⟨?_, ?_, ?_, ?_⟩
  · exact (buildGRPCOptions_validation_order ⟨"", "", "", "", "", ⟨false, none, none, false⟩⟩).1
      rfl
  · exact (buildGRPCOptions_validation_order
      ⟨"test", "", "test", "", "", ⟨false, none, none, false⟩⟩).2.1
      (by decide) (by simp)
  · exact (buildGRPCOptions_validation_order
      ⟨"test", "", "test", "test", "tok", ⟨false, none, none, false⟩⟩).2.2.1
      (by decide) (by decide) (by decide) rfl
  · exact (buildGRPCOptions_validation_order
      ⟨"test", "", "", "", "test", ⟨false, none, none, false⟩⟩).2.2.2
      (by decide) rfl rfl (by decide) rfl

/-- **C5.** For a config document supplying only a URL and (possibly) a
keep-alive block, the built options carry keep-alive values where each
supplied field overrides the default with exactly the supplied value and
unsupplied `time`/`timeout` fields keep their 30s/10s defaults; with no
keep-alive block at all (`kac = ⟨false, none, none, false⟩`, the YAML zero
value) this yields exactly `{enable:false, time:30s, timeout:10s,
permitWithoutStream:false}`. -/
theorem buildGRPCOptions_keepalive_defaults_and_overrides
    (u : String) (kac : KeepAliveConfig) (hu : u ≠ "") :
    buildGRPCOptionsFromFlags ⟨u, "", "", "", "", kac⟩ =
      .ok ⟨u, "", "", "", "",
        ⟨kac.enable, kac.time.getD (30 * second), kac.timeout.getD (10 * second),
          kac.permitWithoutStream⟩⟩ := by
  cases kac with
  | mk enable time timeout pws =>
    cases time <;> cases timeout <;>
      simp [buildGRPCOptionsFromFlags, hu, Option.getD]

/-- Witness for C5: a URL-only config yields the exact keep-alive defaults,
and a config supplying `enable:true, time:10s, permitWithoutStream:true`
(but no timeout) gets exactly those values with the 10s timeout default
kept. -/
theorem buildGRPCOptions_keepalive_defaults_and_overrides_witness :
    buildGRPCOptionsFromFlags ⟨"test", "", "", "", "", ⟨false, none, none, false⟩⟩ =
      .ok ⟨"test", "", "", "", "", ⟨false, 30 * second, 10 * second, false⟩⟩ ∧
    buildGRPCOptionsFromFlags
        ⟨"test", "", "", "", "", ⟨true, some (10 * second), none, true⟩⟩ =
      .ok ⟨"test", "", "", "", "", ⟨true, 10 * second, 10 * second, true⟩⟩ := by
  constructor
  · exact buildGRPCOptions_keepalive_defaults_and_overrides "test"
      ⟨false, none, none, false⟩ (by decide)
  · exact buildGRPCOptions_keepalive_defaults_and_overrides "test"
      ⟨true, some (10 * second), none, true⟩ (by decide)

/-- A Go-style "set" check: a string is non-empty iff its length is
non-zero. -/
theorem length_zero_eq_empty {s : String} (h : s.length = 0) : s = "" := by
  cases s with
  | mk data =>
    cases data with
    | nil => rfl
    | cons c cs => simp [String.length] at h

/-- **C6.** When the CA file and both the client certificate and key files
are present (and load successfully), the connection attaches the client
key pair for mutual TLS, attaches no bearer-token per-RPC credential, and
reads only the CA, certificate and key files — the token file is not read
even when `tokenFile` is set. -/
theorem getGRPCClientConn_mtls_ignores_token
    (fs : String → Option String) (validCAPEM : String → Bool)
    (loadX509KeyPair : String → String → Option (String × String))
    (o : GRPCOptions) (caPEM : String) (pair : String × String)
    (hca : o.caFile ≠ "") (hcert : o.clientCertFile ≠ "") (hkey : o.clientKeyFile ≠ "")
    (hread : fs o.caFile = some caPEM) (hvalid : validCAPEM caPEM = true)
    (hload : loadX509KeyPair o.clientCertFile o.clientKeyFile = some pair) :
    getGRPCClientConn fs validCAPEM loadX509KeyPair o =
      .ok ⟨o.url, o.keepAliveOptions.enable,
        .tlsCreds ⟨true, [caPEM], versionTLS13, versionTLS13, [pair]⟩, none,
        [o.caFile, o.clientCertFile, o.clientKeyFile]⟩ := by
  have hca' : o.caFile.length ≠ 0 := fun h => hca (length_zero_eq_empty h)
  have hcert' : o.clientCertFile.length ≠ 0 := fun h => hcert (length_zero_eq_empty h)
  have hkey' : o.clientKeyFile.length ≠ 0 := fun h => hkey (length_zero_eq_empty h)
  simp [getGRPCClientConn, hca', hcert', hkey', hread, hvalid, hload]

/-- Witness for C6: an options value with CA, client cert/key and a token
file all set dials with mutual TLS, no bearer token, and never reads the
token file. -/
theorem getGRPCClientConn_mtls_ignores_token_witness :
    getGRPCClientConn
      (fun p => if p = "ca" then some "capem" else if p = "tok" then some "token"
        else none)
      (fun _ => true) (fun c k => some (c, k))
      ⟨"test", "ca", "cert", "key", "tok", ⟨false, 30 * second, 10 * second, false⟩⟩ =
      .ok ⟨"test", false,
        .tlsCreds ⟨true, ["capem"], versionTLS13, versionTLS13, [("cert", "key")]⟩,
        none, ["ca", "cert", "key"]⟩ := by
  exact getGRPCClientConn_mtls_ignores_token
    (fun p => if p = "ca" then some "capem" else if p = "tok" then some "token"
      else none)
    (fun _ => true) (fun c k => some (c, k))
    ⟨"test", "ca", "cert", "key", "tok", ⟨false, 30 * second, 10 * second, false⟩⟩
    "capem" ("cert", "key") (by decide) (by decide) (by decide) (by decide) rfl rfl

/-- **C7.** When `caFile` is empty, the dial uses insecure credentials and
no file is read at all — the client cert, key and token paths are never
touched even when set. -/
theorem getGRPCClientConn_insecure_reads_nothing
    (fs : String → Option String) (validCAPEM : String → Bool)
    (loadX509KeyPair : String → String → Option (String × String))
    (o : GRPCOptions) (hca : o.caFile = "") :
    getGRPCClientConn fs validCAPEM loadX509KeyPair o =
      .ok ⟨o.url, o.keepAliveOptions.enable, .insecureCreds, none, []⟩ := by
  simp [getGRPCClientConn, hca]

/-- Witness for C7: an options value with no CA but with cert, key and
token files set still dials insecurely reading no file. -/
theorem getGRPCClientConn_insecure_reads_nothing_witness :
    getGRPCClientConn (fun _ => none) (fun _ => false) (fun _ _ => none)
      ⟨"test", "", "cert", "key", "tok", ⟨false, 30 * second, 10 * second, false⟩⟩ =
      .ok ⟨"test", false, .insecureCreds, none, []⟩ :=
  getGRPCClientConn_insecure_reads_nothing (fun _ => none) (fun _ => false)
    (fun _ _ => none)
    ⟨"test", "", "cert", "key", "tok", ⟨false, 30 * second, 10 * second, false⟩⟩ rfl

/-- **C8.** Whenever `caFile` is present and the call succeeds, the TLS
configuration handed to the dial combines the system trust roots with the
supplied CA PEM and pins `minVersion = maxVersion = TLS 1.3`: no
negotiation range, in every sub-branch (mTLS, token, server-only). -/
theorem getGRPCClientConn_pins_tls13
    (fs : String → Option String) (validCAPEM : String → Bool)
    (loadX509KeyPair : String → String → Option (String × String))
    (o : GRPCOptions) (r : DialResult) (hca : o.caFile ≠ "")
    (hok : getGRPCClientConn fs validCAPEM loadX509KeyPair o = .ok r) :
    ∃ cfg, r.creds = .tlsCreds cfg ∧
      cfg.rootCAsIncludesSystemPool = true ∧
      (∃ caPEM, fs o.caFile = some caPEM ∧ cfg.rootCAsAppendedPEM = [caPEM]) ∧
      cfg.minVersion = versionTLS13 ∧ cfg.maxVersion = versionTLS13 := by
  have hca' : o.caFile.length ≠ 0 := fun h => hca (length_zero_eq_empty h)
  rw [getGRPCClientConn, if_pos hca'] at hok
  split at hok
  next hfs => simp at hok
  next caPEM hfs =>
    split at hok
    next hvalid =>
      simp only [] at hok
      split at hok
      next hcert =>
        split at hok
        next hload => simp at hok
        next pair hload =>
          cases hok
          exact ⟨_, rfl, rfl, ⟨caPEM, hfs, rfl⟩, rfl, rfl⟩
      next hcert =>
        split at hok
        next htok =>
          split at hok
          next hread => simp at hok
          next token hread =>
            cases hok
            exact ⟨_, rfl, rfl, ⟨caPEM, hfs, rfl⟩, rfl, rfl⟩
        next htok =>
          cases hok
          exact ⟨_, rfl, rfl, ⟨caPEM, hfs, rfl⟩, rfl, rfl⟩
    next hvalid => simp at hok

/-- Witness for C8: a server-only TLS dial (CA and token set) succeeds and
its credential pins both TLS version bounds to TLS 1.3 with system + CA
roots. -/
theorem getGRPCClientConn_pins_tls13_witness :
    ∃ cfg,
      (DialResult.mk "test" false
        (.tlsCreds ⟨true, ["capem"], versionTLS13, versionTLS13, []⟩)
        (some "token") ["ca", "tok"]).creds = .tlsCreds cfg ∧
      cfg.rootCAsIncludesSystemPool = true ∧
      (∃ caPEM, (fun p => if p = "ca" then some "capem" else if p = "tok"
        then some "token" else none) "ca" = some caPEM ∧
        cfg.rootCAsAppendedPEM = [caPEM]) ∧
      cfg.minVersion = versionTLS13 ∧ cfg.maxVersion = versionTLS13 := by
  exact getGRPCClientConn_pins_tls13
    (fun p => if p = "ca" then some "capem" else if p = "tok" then some "token"
      else none)
    (fun _ => true) (fun _ _ => none)
    ⟨"test", "ca", "", "", "tok", ⟨false, 30 * second, 10 * second, false⟩⟩
    ⟨"test", false, .tlsCreds ⟨true, ["capem"], versionTLS13, versionTLS13, []⟩,
      some "token", ["ca", "tok"]⟩
    (by decide) rfl

/-- **C2.** `Decode` produces failure reasons in this strict priority
order: unparseable type string; unsupported data type; missing
`resourceid`; missing `resourceversion`; missing `clustername`; payload
deserialization failure.  Each conjunct holds for arbitrary values of the
fields a later check would inspect, so an earlier failure preempts every
later one, and each absence yields a distinct error. -/
theorem manifestBundleDecode_failure_priority {α : Type}
    (parsePayload : Option String → Except String α) (evt : Envelope) :
    (parseCloudEventsType evt.eventType = none →
      manifestBundleDecode parsePayload evt = .error (.badEventType evt.eventType)) ∧
    (∀ t, parseCloudEventsType evt.eventType = some t →
      t.dataType ≠ manifestBundleEventDataType →
      manifestBundleDecode parsePayload evt =
        .error (.unsupportedDataType evt.eventType)) ∧
    (∀ t, parseCloudEventsType evt.eventType = some t →
      t.dataType = manifestBundleEventDataType →
      evt.extension "resourceid" = none →
      manifestBundleDecode parsePayload evt = .error (.missingExtension "resourceid")) ∧
    (∀ t rid, parseCloudEventsType evt.eventType = some t →
      t.dataType = manifestBundleEventDataType →
      evt.extension "resourceid" = some rid →
      evt.extension "resourceversion" = none →
      manifestBundleDecode parsePayload evt =
        .error (.missingExtension "resourceversion")) ∧
    (∀ t rid rv, parseCloudEventsType evt.eventType = some t →
      t.dataType = manifestBundleEventDataType →
      evt.extension "resourceid" = some rid →
      evt.extension "resourceversion" = some rv →
      evt.extension "clustername" = none →
      manifestBundleDecode parsePayload evt = .error (.missingExtension "clustername")) ∧
    (∀ t rid rv cn msg, parseCloudEventsType evt.eventType = some t →
      t.dataType = manifestBundleEventDataType →
      evt.extension "resourceid" = some rid →
      evt.extension "resourceversion" = some rv →
      evt.extension "clustername" = some cn →
      parsePayload evt.data = .error msg →
      manifestBundleDecode parsePayload evt = .error (.badPayload msg)) := by
  refine ⟨?_, ?_, ?_, ?_, ?_, ?_⟩
  · intro h
    simp [manifestBundleDecode, h]
  · intro t ht hdt
    simp [manifestBundleDecode, ht, hdt]
  · intro t ht hdt hrid
    simp [manifestBundleDecode, ht, hdt, hrid]
  · intro t rid ht hdt hrid hrv
    simp [manifestBundleDecode, ht, hdt, hrid, hrv]
  · intro t rid rv ht hdt hrid hrv hcn
    simp [manifestBundleDecode, ht, hdt, hrid, hrv, hcn]
  · intro t rid rv cn msg ht hdt hrid hrv hcn hdata
    simp [manifestBundleDecode, ht, hdt, hrid, hrv, hcn, hdata]

/-- Witness for C2: the six failing envelopes of `TestManifestBundleDecode`
("test"; "test-group.v1.test.spec.test"; then the three missing-extension
cases; then an envelope whose payload fails to deserialize), each yielding
the claimed error. -/
theorem manifestBundleDecode_failure_priority_witness :
    manifestBundleDecode (badDataParse)
        ⟨"", "test", [], none⟩ = .error (.badEventType "test") ∧
    manifestBundleDecode (badDataParse)
        ⟨"", "test-group.v1.test.spec.test", [], none⟩ =
      .error (.unsupportedDataType "test-group.v1.test.spec.test") ∧
    manifestBundleDecode (badDataParse)
        ⟨"", "io.open-cluster-management.works.v1alpha1.manifestbundles.spec.test",
          [], none⟩ = .error (.missingExtension "resourceid") ∧
    manifestBundleDecode (badDataParse)
        ⟨"", "io.open-cluster-management.works.v1alpha1.manifestbundles.spec.test",
          [("resourceid", "test")], none⟩ =
      .error (.missingExtension "resourceversion") ∧
    manifestBundleDecode (badDataParse)
        ⟨"", "io.open-cluster-management.works.v1alpha1.manifestbundles.spec.test",
          [("resourceid", "test"), ("resourceversion", "13")], none⟩ =
      .error (.missingExtension "clustername") ∧
    manifestBundleDecode (badDataParse)
        ⟨"source1", "io.open-cluster-management.works.v1alpha1.manifestbundles.spec.test",
          [("resourceid", "test"), ("resourceversion", "13"),
            ("clustername", "cluster1")], none⟩ = .error (.badPayload "bad data") := by
  refine ⟨?_, ?_, ?_, ?_, ?_, ?_⟩
  · exact (manifestBundleDecode_failure_priority (badDataParse)
      ⟨"", "test", [], none⟩).1 (by decide)
  · exact (manifestBundleDecode_failure_priority (badDataParse)
      ⟨"", "test-group.v1.test.spec.test", [], none⟩).2.1
      ⟨⟨"test-group", "v1", "test"⟩, "spec", "test"⟩ (by decide) (by decide)
  · exact (manifestBundleDecode_failure_priority (badDataParse)
      ⟨"", "io.open-cluster-management.works.v1alpha1.manifestbundles.spec.test",
        [], none⟩).2.2.1
      ⟨manifestBundleEventDataType, "spec", "test"⟩ (by decide) rfl rfl
  · exact (manifestBundleDecode_failure_priority (badDataParse)
      ⟨"", "io.open-cluster-management.works.v1alpha1.manifestbundles.spec.test",
        [("resourceid", "test")], none⟩).2.2.2.1
      ⟨manifestBundleEventDataType, "spec", "test"⟩ "test" (by decide) rfl rfl rfl
  · exact (manifestBundleDecode_failure_priority (badDataParse)
      ⟨"", "io.open-cluster-management.works.v1alpha1.manifestbundles.spec.test",
        [("resourceid", "test"), ("resourceversion", "13")], none⟩).2.2.2.2.1
      ⟨manifestBundleEventDataType, "spec", "test"⟩ "test" "13"
      (by decide) rfl rfl rfl rfl
  · exact (manifestBundleDecode_failure_priority (badDataParse)
      ⟨"source1", "io.open-cluster-management.works.v1alpha1.manifestbundles.spec.test",
        [("resourceid", "test"), ("resourceversion", "13"),
          ("clustername", "cluster1")], none⟩).2.2.2.2.2
      ⟨manifestBundleEventDataType, "spec", "test"⟩ "test" "13" "cluster1" "bad data"
      (by decide) rfl rfl rfl rfl rfl

/-- **C9.** For a status sub-resource event on a resource whose version
identifier is numeric, `Encode` fails with the missing-original-source
error when the resource carries no original-source label, and the same
call succeeds once the label is present. -/
theorem manifestBundleEncode_status_original_source
    (serialize : ManifestWork → String) (sourceID : String)
    (t : CloudEventsType) (work : ManifestWork) (rv : Nat)
    (hdt : t.dataType = manifestBundleEventDataType)
    (hsub : t.subResource = "status")
    (hrv : decimalToNat? work.resourceVersion = some rv) :
    (work.getLabel originalSourceLabel = none →
      manifestBundleEncode serialize sourceID t work = .error .missingOriginalSource) ∧
    (∀ s, work.getLabel originalSourceLabel = some s →
      ∃ env, manifestBundleEncode serialize sourceID t work = .ok env) := by
  constructor
  · intro hlbl
    simp [manifestBundleEncode, hdt, hrv, hsub, hlbl]
  · intro s hlbl
    simp [manifestBundleEncode, hdt, hrv, hsub, hlbl]

/-- Witness for C9, mirroring `TestManifestBundleEncode`: the work with
`ResourceVersion "13"` and no labels fails to encode as a status event,
and the same work carrying the original-source label `source1` encodes
successfully. -/
theorem manifestBundleEncode_status_original_source_witness :
    (manifestBundleEncode (fun _ => "{}") "cluster1-work-agent"
        ⟨manifestBundleEventDataType, "status", "test"⟩
        ⟨"test", "cluster1", "13", [], none⟩ = .error .missingOriginalSource) ∧
    (∃ env, manifestBundleEncode (fun _ => "{}") "cluster1-work-agent"
        ⟨manifestBundleEventDataType, "status", "test"⟩
        ⟨"test", "cluster1", "13",
          [(originalSourceLabel, "source1")], none⟩ = .ok env) := by
  constructor
  · exact (manifestBundleEncode_status_original_source (fun _ => "{}")
      "cluster1-work-agent" ⟨manifestBundleEventDataType, "status", "test"⟩
      ⟨"test", "cluster1", "13", [], none⟩ 13 rfl rfl (by decide)).1 rfl
  · exact (manifestBundleEncode_status_original_source (fun _ => "{}")
      "cluster1-work-agent" ⟨manifestBundleEventDataType, "status", "test"⟩
      ⟨"test", "cluster1", "13", [(originalSourceLabel, "source1")], none⟩ 13
      rfl rfl (by decide)).2 "source1" (by decide)

end SdkGo
